import Mathlib

/-!
Verification of the FileProcessor program (src/index.py): a shallow
embedding of its reader, writer and text-transformation routines, with
theorems checking the specification claims about them.

Text is modelled as a list of characters and a file's raw content as a
list of bytes (naturals below 256).  The case mapping of str.upper is
modelled on the ASCII range, the only range the program's own headers,
messages and the specification's examples exercise.
-/

/-- Text content: a list of characters. -/
abbrev Text := List Char

/-- ASCII uppercase mapping, modelling Python str.upper character-wise on
the ASCII range (all other characters are left unchanged). -/
def pyUpperChar (c : Char) : Char :=
  if 97 ≤ c.toNat ∧ c.toNat ≤ 122 then Char.ofNat (c.toNat - 32) else c

/-- Converting a valid code point to a character and back is the
identity. -/
theorem char_toNat_ofNat (n : Nat) (h : n < 55296) : (Char.ofNat n).toNat = n := by
  have hv : n.isValidChar := Or.inl h
  simp [Char.ofNat, hv, Char.ofNatAux, Char.toNat, UInt32.toNat, BitVec.toNat_ofNatLt]

/-- The modelled case mapping is idempotent character-wise. -/
theorem pyUpperChar_idem (c : Char) : pyUpperChar (pyUpperChar c) = pyUpperChar c := by
  unfold pyUpperChar
  by_cases h : 97 ≤ c.toNat ∧ c.toNat ≤ 122
  · rw [if_pos h]
    have ht : (Char.ofNat (c.toNat - 32)).toNat = c.toNat - 32 :=
      char_toNat_ofNat (c.toNat - 32) (by omega)
    rw [if_neg]
    omega
  · rw [if_neg h, if_neg h]

/-- Characters treated as line terminators by Python str.splitlines. -/
def isLineBreak (c : Char) : Bool :=
  c == Char.ofNat 10 || c == Char.ofNat 13 || c.toNat == 0x0B || c.toNat == 0x0C ||
  c.toNat == 0x1C || c.toNat == 0x1D || c.toNat == 0x1E || c.toNat == 0x85 ||
  c.toNat == 0x2028 || c.toNat == 0x2029

/-- Worker for pySplitlines: cur is the current line, reversed; the fuel
argument (kept at least the length of the remaining input, which shrinks
at every step) only forces structural recursion. -/
def pySplitlinesGo : Nat → List Char → List Char → List (List Char)
  | _, cur, [] => [cur.reverse]
  | 0, cur, _ => [cur.reverse]
  | fuel + 1, cur, c :: rest =>
    if c = Char.ofNat 13 then
      match rest with
      | d :: rest2 =>
        if d = Char.ofNat 10 then
          cur.reverse :: (if rest2.isEmpty then [] else pySplitlinesGo fuel [] rest2)
        else
          cur.reverse :: pySplitlinesGo fuel [] rest
      | [] => [cur.reverse]
    else if isLineBreak c then
      cur.reverse :: (if rest.isEmpty then [] else pySplitlinesGo fuel [] rest)
    else pySplitlinesGo fuel (c :: cur) rest

/-- Python str.splitlines: split at any line terminator, recognising CRLF
as a single terminator; a trailing terminator does not produce an extra
empty line. -/
def pySplitlines : Text → List Text
  | [] => []
  | c :: rest => pySplitlinesGo (c :: rest).length [] (c :: rest)

/-- Characters treated as whitespace by Python str.split with no
separator argument. -/
def isPySpace (c : Char) : Bool :=
  let n := c.toNat
  (0x09 ≤ n && n ≤ 0x0D) || n == 0x20 || (0x1C ≤ n && n ≤ 0x1F) || n == 0x85 ||
  n == 0xA0 || n == 0x1680 || (0x2000 ≤ n && n ≤ 0x200A) || n == 0x2028 ||
  n == 0x2029 || n == 0x202F || n == 0x205F || n == 0x3000

/-- Worker for pySplitWs. -/
def pySplitWsGo (cur : List Char) : List Char → List (List Char)
  | [] => if cur.isEmpty then [] else [cur.reverse]
  | c :: rest =>
    if isPySpace c then
      if cur.isEmpty then pySplitWsGo [] rest
      else cur.reverse :: pySplitWsGo [] rest
    else pySplitWsGo (c :: cur) rest

/-- Python str.split with no argument: whitespace-delimited tokens, runs
of whitespace collapsed, no empty tokens. -/
def pySplitWs (t : Text) : List Text := pySplitWsGo [] t

/-- Decimal rendering of a natural number, as text. -/
def natText (n : Nat) : Text := (Nat.repr n).data

/-- Python format spec 3d: decimal, right-aligned in a field of width 3. -/
def fmt3 (n : Nat) : Text :=
  let ds := natText n
  List.replicate (3 - ds.length) (Char.ofNat 32) ++ ds

/-- Join a list of lines with newline separators (Python str.join on a
newline). -/
def joinNL (ls : List Text) : Text := List.intercalate [Char.ofNat 10] ls

/-- Header emitted by the uppercase operation of process_text. -/
def upHeader : Text := ("=== CONTENT IN UPPERCASE ===\n").data

/-- Header emitted by the reverse_lines operation of process_text. -/
def revHeader : Text := ("=== CONTENT WITH REVERSED LINE ORDER ===\n").data

/-- Header emitted by process_text for an unrecognised operation name. -/
def unknownHeader (operation : String) : Text :=
  ("=== PROCESSED CONTENT (unknown operation: ").data ++ operation.data ++ (") ===\n").data

/-- FileProcessor.process_text: pure text transformation dispatch.  The
try/except wrapper in the source is dead code (no statement in the body
can raise), so the embedding is the body itself; totality is by
construction. -/
def process_text (content : Text) (operation : String) : Text :=
  let lines := pySplitlines content
  if operation = "word_count" then
    ("=== FILE STATISTICS ===\nLines: ").data ++ natText lines.length ++
    ("\nWords: ").data ++ natText (pySplitWs content).length ++
    ("\nCharacters: ").data ++ natText content.length ++
    ("\nCharacters (no spaces): ").data ++
    natText (content.filter (fun c => !(c == Char.ofNat 32))).length ++
    ("\n\n=== ORIGINAL CONTENT ===\n").data ++ content ++ [Char.ofNat 10]
  else if operation = "line_numbers" then
    ("=== CONTENT WITH LINE NUMBERS ===\n").data ++
    joinNL (lines.enum.map (fun p => fmt3 (p.1 + 1) ++ (": ").data ++ p.2))
  else if operation = "reverse_lines" then
    revHeader ++ joinNL lines.reverse
  else if operation = "uppercase" then
    upHeader ++ content.map pyUpperChar
  else
    unknownHeader operation ++ content

/-!
Byte-level text codecs, modelling the Python codecs the program passes to
open().  A decoder returns none exactly when the corresponding Python
codec raises UnicodeDecodeError.
-/

/-- Strict UTF-8 decoding (overlong forms, surrogates and code points
past U+10FFFF are rejected, as in CPython).  The fuel argument, kept at
least the length of the remaining input, only forces structural
recursion. -/
def utf8DecodeAux : Nat → List Nat → Option Text
  | _, [] => some []
  | 0, _ :: _ => none
  | fuel + 1, b1 :: rest =>
    if b1 ≤ 0x7F then
      match utf8DecodeAux fuel rest with
      | some cs => some (Char.ofNat b1 :: cs)
      | none => none
    else if 0xC2 ≤ b1 ∧ b1 ≤ 0xDF then
      match rest with
      | b2 :: rest2 =>
        if 0x80 ≤ b2 ∧ b2 ≤ 0xBF then
          match utf8DecodeAux fuel rest2 with
          | some cs => some (Char.ofNat ((b1 - 0xC0) * 64 + (b2 - 0x80)) :: cs)
          | none => none
        else none
      | [] => none
    else if 0xE0 ≤ b1 ∧ b1 ≤ 0xEF then
      match rest with
      | b2 :: b3 :: rest3 =>
        if (if b1 = 0xE0 then 0xA0 ≤ b2 ∧ b2 ≤ 0xBF
            else if b1 = 0xED then 0x80 ≤ b2 ∧ b2 ≤ 0x9F
            else 0x80 ≤ b2 ∧ b2 ≤ 0xBF) ∧ 0x80 ≤ b3 ∧ b3 ≤ 0xBF then
          match utf8DecodeAux fuel rest3 with
          | some cs =>
            some (Char.ofNat ((b1 - 0xE0) * 4096 + (b2 - 0x80) * 64 + (b3 - 0x80)) :: cs)
          | none => none
        else none
      | _ => none
    else if 0xF0 ≤ b1 ∧ b1 ≤ 0xF4 then
      match rest with
      | b2 :: b3 :: b4 :: rest4 =>
        if (if b1 = 0xF0 then 0x90 ≤ b2 ∧ b2 ≤ 0xBF
            else if b1 = 0xF4 then 0x80 ≤ b2 ∧ b2 ≤ 0x8F
            else 0x80 ≤ b2 ∧ b2 ≤ 0xBF) ∧ 0x80 ≤ b3 ∧ b3 ≤ 0xBF ∧ 0x80 ≤ b4 ∧ b4 ≤ 0xBF then
          match utf8DecodeAux fuel rest4 with
          | some cs =>
            some (Char.ofNat
              ((b1 - 0xF0) * 262144 + (b2 - 0x80) * 4096 + (b3 - 0x80) * 64 + (b4 - 0x80)) :: cs)
          | none => none
        else none
      | _ => none
    else none

/-- Strict UTF-8 decoding of a byte sequence. -/
def utf8Decode (bs : List Nat) : Option Text := utf8DecodeAux bs.length bs

/-- Little-endian 16-bit code units from a byte list; odd lengths are
truncated data and fail. -/
def utf16UnitsLE : List Nat → Option (List Nat)
  | [] => some []
  | [_] => none
  | b1 :: b2 :: rest =>
    match utf16UnitsLE rest with
    | some us => some ((b1 + 256 * b2) :: us)
    | none => none

/-- Big-endian 16-bit code units from a byte list. -/
def utf16UnitsBE : List Nat → Option (List Nat)
  | [] => some []
  | [_] => none
  | b1 :: b2 :: rest =>
    match utf16UnitsBE rest with
    | some us => some ((256 * b1 + b2) :: us)
    | none => none

/-- Combine UTF-16 code units, pairing surrogates; lone or misordered
surrogates fail.  The fuel argument only forces structural recursion. -/
def utf16PairAux : Nat → List Nat → Option Text
  | _, [] => some []
  | 0, _ :: _ => none
  | fuel + 1, u :: rest =>
    if u < 0xD800 ∨ 0xDFFF < u then
      match utf16PairAux fuel rest with
      | some cs => some (Char.ofNat u :: cs)
      | none => none
    else if u ≤ 0xDBFF then
      match rest with
      | v :: rest2 =>
        if 0xDC00 ≤ v ∧ v ≤ 0xDFFF then
          match utf16PairAux fuel rest2 with
          | some cs => some (Char.ofNat (0x10000 + (u - 0xD800) * 1024 + (v - 0xDC00)) :: cs)
          | none => none
        else none
      | [] => none
    else none

/-- Combine a list of UTF-16 code units into text. -/
def utf16Pair (us : List Nat) : Option Text := utf16PairAux us.length us

/-- Python utf-16 codec: honour a leading byte-order mark, defaulting to
little-endian (the native order of the platforms the program targets)
when none is present. -/
def utf16Decode : List Nat → Option Text
  | 255 :: 254 :: rest =>
    (match utf16UnitsLE rest with
     | some us => utf16Pair us
     | none => none)
  | 254 :: 255 :: rest =>
    (match utf16UnitsBE rest with
     | some us => utf16Pair us
     | none => none)
  | bs =>
    (match utf16UnitsLE bs with
     | some us => utf16Pair us
     | none => none)

/-- Latin-1 decoding: every byte maps to the code point of the same
value, so this codec never fails. -/
def latin1Decode (bs : List Nat) : Text := bs.map (fun b => Char.ofNat (b % 256))

/-- The cp1252 mapping for the 0x80-0x9F block; other bytes map to their
own code point. -/
def cp1252Table (b : Nat) : Nat :=
  if b = 0x80 then 0x20AC else if b = 0x82 then 0x201A else if b = 0x83 then 0x0192
  else if b = 0x84 then 0x201E else if b = 0x85 then 0x2026 else if b = 0x86 then 0x2020
  else if b = 0x87 then 0x2021 else if b = 0x88 then 0x02C6 else if b = 0x89 then 0x2030
  else if b = 0x8A then 0x0160 else if b = 0x8B then 0x2039 else if b = 0x8C then 0x0152
  else if b = 0x8E then 0x017D else if b = 0x91 then 0x2018 else if b = 0x92 then 0x2019
  else if b = 0x93 then 0x201C else if b = 0x94 then 0x201D else if b = 0x95 then 0x2022
  else if b = 0x96 then 0x2013 else if b = 0x97 then 0x2014 else if b = 0x98 then 0x02DC
  else if b = 0x99 then 0x2122 else if b = 0x9A then 0x0161 else if b = 0x9B then 0x203A
  else if b = 0x9C then 0x0153 else if b = 0x9E then 0x017E else if b = 0x9F then 0x0178
  else b

/-- One byte under cp1252; the five unassigned bytes fail. -/
def cp1252Char (b0 : Nat) : Option Char :=
  let b := b0 % 256
  if b = 0x81 ∨ b = 0x8D ∨ b = 0x8F ∨ b = 0x90 ∨ b = 0x9D then none
  else some (Char.ofNat (cp1252Table b))

/-- cp1252 decoding of a byte sequence. -/
def cp1252Decode : List Nat → Option Text
  | [] => some []
  | b :: rest =>
    match cp1252Char b, cp1252Decode rest with
    | some c, some cs => some (c :: cs)
    | _, _ => none

/-- UTF-8 encoding of one character. -/
def utf8EncodeChar (c : Char) : List Nat :=
  let n := c.toNat
  if n ≤ 0x7F then [n]
  else if n ≤ 0x7FF then [0xC0 + n / 64, 0x80 + n % 64]
  else if n ≤ 0xFFFF then [0xE0 + n / 4096, 0x80 + n / 64 % 64, 0x80 + n % 64]
  else [0xF0 + n / 262144, 0x80 + n / 4096 % 64, 0x80 + n / 64 % 64, 0x80 + n % 64]

/-- UTF-8 encoding of text, as used by write_file via open(..., w,
encoding=utf-8). -/
def utf8Encode (t : Text) : List Nat := (t.map utf8EncodeChar).flatten

/-- The fixed ordered encoding list of read_file (source line 48). -/
def pyEncodings : List String := ["utf-8", "utf-16", "latin-1", "cp1252"]

/-- Decode bytes under one named encoding from the list. -/
def decodeWith (enc : String) (bs : List Nat) : Option Text :=
  if enc = "utf-8" then utf8Decode bs
  else if enc = "utf-16" then utf16Decode bs
  else if enc = "latin-1" then some (latin1Decode bs)
  else if enc = "cp1252" then cp1252Decode bs
  else none

/-- The for-loop of read_file: try each encoding in order, returning the
first that decodes together with its name. -/
def firstDecodeGo (bs : List Nat) : List String → Option (String × Text)
  | [] => none
  | e :: rest =>
    match decodeWith e bs with
    | some t => some (e, t)
    | none => firstDecodeGo bs rest

/-- First successful decoding of the raw bytes under the fixed encoding
list. -/
def firstDecode (bs : List Nat) : Option (String × Text) := firstDecodeGo bs pyEncodings

/-- Worker for universalNewlines.  The fuel argument, kept at least the
length of the remaining input, only forces structural recursion. -/
def universalNewlinesAux : Nat → Text → Text
  | _, [] => []
  | 0, t => t
  | fuel + 1, c :: rest =>
    if c = Char.ofNat 13 then
      match rest with
      | d :: rest2 =>
        if d = Char.ofNat 10 then Char.ofNat 10 :: universalNewlinesAux fuel rest2
        else Char.ofNat 10 :: universalNewlinesAux fuel rest
      | [] => [Char.ofNat 10]
    else c :: universalNewlinesAux fuel rest

/-- Universal-newline translation of Python text-mode reading (open with
mode r and the default newline=None): every CRLF pair and every lone CR
in the decoded stream becomes a single LF before read() returns. -/
def universalNewlines (t : Text) : Text := universalNewlinesAux t.length t

/-- For a fixed fuel bound, the translation is the identity on text
without carriage returns. -/
theorem universalNewlinesAux_no_cr (fuel : Nat) :
    ∀ t : Text, t.length ≤ fuel → (∀ c ∈ t, c ≠ Char.ofNat 13) →
      universalNewlinesAux fuel t = t := by
  induction fuel with
  | zero =>
    intro t _ _
    cases t with
    | nil => rfl
    | cons c rest => rfl
  | succ n ih =>
    intro t ht hc
    cases t with
    | nil => rfl
    | cons c rest =>
      have h1 : c ≠ Char.ofNat 13 := hc c (by simp)
      simp only [universalNewlinesAux, if_neg h1]
      have h2 : universalNewlinesAux n rest = rest :=
        ih rest (by simp at ht; omega) (fun d hd => hc d (by simp [hd]))
      rw [h2]

/-- The universal-newline translation is the identity on text without
carriage returns. -/
theorem universalNewlines_no_cr (t : Text) (h : ∀ c ∈ t, c ≠ Char.ofNat 13) :
    universalNewlines t = t :=
  universalNewlinesAux_no_cr t.length t le_rfl h

/-!
Filesystem model.  A filesystem maps a path to an entry (regular file
with raw bytes, directory, or other non-regular entry) and records which
paths the process may write; each entry carries whether the process may
read it (os.access with R_OK).  This is the state read_file and
write_file interact with.
-/

/-- A directory entry. -/
inductive Entry where
  | file (bytes : List Nat) (readable : Bool)
  | dir (readable : Bool)
  | other (readable : Bool)
deriving DecidableEq

/-- Whether an entry is a regular file (Path.is_file). -/
def isFileEntry : Entry → Bool
  | Entry.file _ _ => true
  | _ => false

/-- The filesystem state. -/
structure FS where
  entry : String → Option Entry
  writable : String → Bool

/-- Replace the entry at one path. -/
def setEntry (fs : FS) (p : String) (e : Entry) : FS :=
  { entry := fun q => if q = p then some e else fs.entry q, writable := fs.writable }

/-- Outcome of FileProcessor.read_file: the returned triple (success,
content, error_msg) plus the console lines it prints and the messages it
appends to self.errors. -/
structure ReadResult where
  success : Bool
  content : Text
  errorMsg : String
  printed : List String
  newErrors : List String
deriving DecidableEq

/-- Error message for a nonexistent path (source line 31). -/
def notFoundMsg (filename : String) : String :=
  "❌ File \x27" ++ filename ++ "\x27 does not exist"

/-- Error message for a non-regular entry (source line 37). -/
def notAFileMsg (filename : String) : String :=
  "❌ \x27" ++ filename ++ "\x27 is not a file"

/-- Error message for an unreadable file (source line 43). -/
def readPermMsg (filename : String) : String :=
  "❌ Permission denied: Cannot read \x27" ++ filename ++ "\x27"

/-- Error message when every encoding fails (source line 60). -/
def undecodableMsg (filename : String) : String :=
  "❌ Could not decode \x27" ++ filename ++ "\x27 with any supported encoding"

/-- Console message for a successful read (source line 54). -/
def readSuccessMsg (filename enc : String) : String :=
  "✅ Successfully read \x27" ++ filename ++ "\x27 using " ++ enc ++ " encoding"

/-- A failed read: returns (False, empty, msg) and logs msg. -/
def failRead (m : String) : ReadResult :=
  { success := false, content := [], errorMsg := m, printed := [], newErrors := [m] }

/-- A successful read: returns (True, content, empty) and prints the
encoding that was used. -/
def okRead (filename enc : String) (t : Text) : ReadResult :=
  { success := true, content := t, errorMsg := "",
    printed := [readSuccessMsg filename enc], newErrors := [] }

/-- FileProcessor.read_file: existence, regular-file and readability
checks in that order, then the encoding trial loop.  The file is opened
in text mode, so the content handed back by read() is the decoded text
after universal-newline translation.  The except arms of the source
(PermissionError/OSError at open time) guard against races between the
checks and the open; the model's filesystem is immutable within one
call, so they are unreachable here. -/
def read_file (fs : FS) (filename : String) : ReadResult :=
  match fs.entry filename with
  | none => failRead (notFoundMsg filename)
  | some (Entry.dir _) => failRead (notAFileMsg filename)
  | some (Entry.other _) => failRead (notAFileMsg filename)
  | some (Entry.file bs r) =>
    if r then
      match firstDecode bs with
      | some (enc, t) => okRead filename enc (universalNewlines t)
      | none => failRead (undecodableMsg filename)
    else failRead (readPermMsg filename)

/-- Outcome of FileProcessor.write_file: the returned pair (success,
error_msg), the filesystem afterwards, the console lines printed, and
the messages appended to self.errors and self.processed_files. -/
structure WriteResult where
  success : Bool
  errorMsg : String
  fs : FS
  printed : List String
  newErrors : List String
  newProcessed : List String

/-- Console message for a created backup (source line 90). -/
def backupOkMsg (p : String) : String := "📄 Created backup: " ++ p

/-- Console warning when the backup could not be created (source line
92); the exception detail is elided. -/
def backupWarnMsg : String := "⚠️ Warning: Could not create backup"

/-- Console message for a successful write (source line 101). -/
def writeOkMsg (filename : String) : String :=
  "✅ Successfully wrote to \x27" ++ filename ++ "\x27"

/-- Error message for a write permission failure (source line 106). -/
def writePermMsg (filename : String) : String :=
  "❌ Permission denied writing to \x27" ++ filename ++ "\x27"

/-- The backup block of write_file: if requested and the target exists,
copy it to the sibling path (filename plus a .backup suffix); read_text
decodes in text mode (UTF-8 with universal newlines) and write_text
re-encodes as UTF-8; any failure is only a console warning.  Returns
the filesystem afterwards and the lines printed. -/
def backupStep (fs : FS) (filename : String) (backup : Bool) : FS × List String :=
  if backup ∧ (fs.entry filename).isSome then
    match fs.entry filename with
    | some (Entry.file bs true) =>
      (match utf8Decode bs with
       | some t =>
         if fs.writable (filename ++ ".backup") then
           (setEntry fs (filename ++ ".backup")
              (Entry.file (utf8Encode (universalNewlines t)) true),
            [backupOkMsg (filename ++ ".backup")])
         else (fs, [backupWarnMsg])
       | none => (fs, [backupWarnMsg]))
    | some _ => (fs, [backupWarnMsg])
    | none => (fs, [])
  else (fs, [])

/-- FileProcessor.write_file: optional backup, implicit directory
creation (a no-op in this flat model), then the UTF-8 write; a write to
an unwritable path raises PermissionError, caught and returned as a
failure.  The OSError and bare except arms are unreachable here. -/
def write_file (fs : FS) (filename : String) (content : Text) (backup : Bool) : WriteResult :=
  let bp := backupStep fs filename backup
  if fs.writable filename then
    { success := true, errorMsg := "",
      fs := setEntry bp.1 filename (Entry.file (utf8Encode content) true),
      printed := bp.2 ++ [writeOkMsg filename], newErrors := [], newProcessed := [filename] }
  else
    { success := false, errorMsg := writePermMsg filename, fs := bp.1,
      printed := bp.2, newErrors := [writePermMsg filename], newProcessed := [] }

/-- The read-and-process flow of main (source lines 199-221): a failed
read reports the error and returns to the menu without ever calling
process_text. -/
def readAndProcess (fs : FS) (filename operation : String) : Except String Text :=
  let r := read_file fs filename
  if r.success then Except.ok (process_text r.content operation) else Except.error r.errorMsg

/-- A small concrete filesystem used to witness the theorems: a UTF-8
text file, a file that only Latin-1 can decode, an unreadable file, an
unreadable directory, and one unwritable target path. -/
def sampleFS : FS where
  entry := fun p =>
    if p = "a.txt" then some (Entry.file [104, 105] true)
    else if p = "bin.dat" then some (Entry.file [255] true)
    else if p = "locked.txt" then some (Entry.file [65] false)
    else if p = "d" then some (Entry.dir false)
    else none
  writable := fun p => if p = "ro.txt" then false else true

/-- A one-file filesystem whose file decodes, under UTF-8, to text
containing a CRLF sequence; it exhibits the text-mode newline
translation of read_file. -/
def crlfFS : FS where
  entry := fun p =>
    if p = "crlf.txt" then some (Entry.file [97, 13, 10, 98] true) else none
  writable := fun _ => true

/-!
Claims about the Transformer (process_text).
-/

/-- Claim C3: the statistics operation on the text consisting of the
line a-space-b and the line c, both newline-terminated, reports 2 lines,
3 words, 6 characters and 5 characters excluding spaces, and its output
ends with the original text verbatim after the statistics block. -/
theorem statistics_on_sample :
    (pySplitlines ("a b\nc\n").data).length = 2 ∧
    (pySplitWs ("a b\nc\n").data).length = 3 ∧
    ("a b\nc\n").data.length = 6 ∧
    ((("a b\nc\n").data).filter (fun c => !(c == Char.ofNat 32))).length = 5 ∧
    process_text ("a b\nc\n").data "word_count" =
      ("=== FILE STATISTICS ===\nLines: 2\nWords: 3\nCharacters: 6\nCharacters (no spaces): 5\n\n=== ORIGINAL CONTENT ===\n").data
        ++ ("a b\nc\n").data ++ [Char.ofNat 10] := by
  decide

/-- Claim C7: reverse_lines on the three unterminated lines 1, 2, 3
emits them in the order 3, 2, 1, and on every text it emits the split
lines in reverse order, each line itself unchanged. -/
theorem reverse_lines_reverses_line_order :
    process_text ("1\n2\n3").data "reverse_lines" =
      ("=== CONTENT WITH REVERSED LINE ORDER ===\n3\n2\n1").data ∧
    ∀ t : Text, process_text t "reverse_lines" =
      revHeader ++ joinNL (pySplitlines t).reverse := by
  constructor
  · decide
  · intro t
    rfl

/-- Claim C2 counterexample: the uppercase transformation is not
idempotent; already on empty input, the second application prepends the
header a second time. -/
theorem uppercase_not_idempotent :
    process_text (process_text [] "uppercase") "uppercase" ≠ process_text [] "uppercase" := by
  decide

/-- Claim C2 as amended: applying the uppercase transformation twice
yields the result of applying it once with one extra copy of the header
prepended; the underlying character case mapping itself is idempotent,
but each application adds the header line. -/
theorem uppercase_twice_adds_header (t : Text) :
    process_text (process_text t "uppercase") "uppercase" =
      upHeader ++ process_text t "uppercase" := by
  have h : ∀ s : Text, process_text s "uppercase" = upHeader ++ s.map pyUpperChar :=
    fun _ => rfl
  have hh : upHeader.map pyUpperChar = upHeader := by decide
  have hmap : t.map (pyUpperChar ∘ pyUpperChar) = t.map pyUpperChar :=
    List.map_congr_left (fun a _ => pyUpperChar_idem a)
  simp only [h, List.map_append, hh, List.map_map, hmap]

/-- Claim C8: process_text is a total pure function; for an operation
name outside the four recognised ones it returns the input content
unchanged, preceded by a header that names the unrecognised operation. -/
theorem unknown_operation_passthrough (content : Text) (operation : String)
    (h1 : operation ≠ "word_count") (h2 : operation ≠ "line_numbers")
    (h3 : operation ≠ "reverse_lines") (h4 : operation ≠ "uppercase") :
    process_text content operation = unknownHeader operation ++ content := by
  simp [process_text, h1, h2, h3, h4]

/-- Witness for claim C8 at a concrete unrecognised operation name. -/
theorem unknown_operation_passthrough_witness :
    process_text ("hi").data "frobnicate" = unknownHeader "frobnicate" ++ ("hi").data :=
  unknown_operation_passthrough ("hi").data "frobnicate"
    (by decide) (by decide) (by decide) (by decide)

/-!
Claims about the Reader (read_file), the Writer (write_file) and the
error policy.
-/

/-- Unfolding decodeWith at the first encoding of the list. -/
theorem decodeWith_utf8 (bs : List Nat) : decodeWith "utf-8" bs = utf8Decode bs := rfl

/-- Unfolding decodeWith at the second encoding of the list. -/
theorem decodeWith_utf16 (bs : List Nat) : decodeWith "utf-16" bs = utf16Decode bs := rfl

/-- Unfolding decodeWith at the third encoding of the list; Latin-1
decodes every byte sequence, so the result is always some. -/
theorem decodeWith_latin1 (bs : List Nat) :
    decodeWith "latin-1" bs = some (latin1Decode bs) := rfl

/-- Unfolding decodeWith at the last encoding of the list. -/
theorem decodeWith_cp1252 (bs : List Nat) : decodeWith "cp1252" bs = cp1252Decode bs := rfl

/-- The encoding trial loop in closed form: UTF-8 first, then UTF-16,
and otherwise Latin-1, which cannot fail, so the loop never falls
through to cp1252 or to the exhausted case. -/
theorem firstDecode_eq (bs : List Nat) :
    firstDecode bs =
      (match utf8Decode bs with
       | some t => some ("utf-8", t)
       | none =>
         match utf16Decode bs with
         | some t => some ("utf-16", t)
         | none => some ("latin-1", latin1Decode bs)) := by
  cases h8 : utf8Decode bs with
  | some t =>
    simp [firstDecode, pyEncodings, firstDecodeGo, decodeWith_utf8, h8]
  | none =>
    cases h16 : utf16Decode bs with
    | some t =>
      simp [firstDecode, pyEncodings, firstDecodeGo, decodeWith_utf8, decodeWith_utf16, h8, h16]
    | none =>
      simp [firstDecode, pyEncodings, firstDecodeGo, decodeWith_utf8, decodeWith_utf16,
        decodeWith_latin1, h8, h16]

/-- Every read_file outcome is either the success record or a failure
record. -/
theorem read_file_shape (fs : FS) (path : String) :
    (∃ enc t, read_file fs path = okRead path enc t) ∨
    (∃ m, read_file fs path = failRead m) := by
  cases he : fs.entry path with
  | none => exact Or.inr ⟨notFoundMsg path, by simp [read_file, he]⟩
  | some e =>
    cases e with
    | dir r => exact Or.inr ⟨notAFileMsg path, by simp [read_file, he]⟩
    | other r => exact Or.inr ⟨notAFileMsg path, by simp [read_file, he]⟩
    | file bs r =>
      cases r with
      | false => exact Or.inr ⟨readPermMsg path, by simp [read_file, he]⟩
      | true =>
        cases hd : firstDecode bs with
        | none => exact Or.inr ⟨undecodableMsg path, by simp [read_file, he, hd]⟩
        | some p =>
          obtain ⟨enc, t⟩ := p
          exact Or.inl ⟨enc, universalNewlines t, by simp [read_file, he, hd]⟩

/-- Claim C1 counterexample: the file of crlfFS is validly encoded and
its exact decoded UTF-8 content is the text a-CR-LF-b, yet the read
succeeds with the translated text a-LF-b, not the exact decoded
content. -/
theorem read_content_not_exact_decoded :
    firstDecode [97, 13, 10, 98] = some ("utf-8", ("a\r\nb").data) ∧
    (read_file crlfFS "crlf.txt").success = true ∧
    (read_file crlfFS "crlf.txt").content = ("a\nb").data ∧
    (read_file crlfFS "crlf.txt").content ≠ ("a\r\nb").data := by
  decide

/-- Claim C1 as amended: for an existing, readable regular file whose
bytes some encoding in the list decodes, read_file returns success with
the decoded content after the universal-newline translation of Python
text mode, and reports the encoding that was used in the success message
it prints; when the decoded text contains no carriage return, the
returned content is exactly the decoded content. -/
theorem read_returns_translated_content (fs : FS) (path : String) (bs : List Nat)
    (enc : String) (t : Text)
    (hfile : fs.entry path = some (Entry.file bs true))
    (hdec : firstDecode bs = some (enc, t)) :
    read_file fs path = okRead path enc (universalNewlines t) ∧
    ((∀ c ∈ t, c ≠ Char.ofNat 13) → read_file fs path = okRead path enc t) := by
  have h1 : read_file fs path = okRead path enc (universalNewlines t) := by
    simp [read_file, hfile, hdec]
  exact ⟨h1, fun hcr => by rw [h1, universalNewlines_no_cr t hcr]⟩

/-- Witness for claim C1 as amended: a CR-free UTF-8 file reads back
exactly; the CRLF file reads back with the newline translated. -/
theorem read_returns_translated_content_witness :
    read_file sampleFS "a.txt" = okRead "a.txt" "utf-8" ("hi").data ∧
    read_file crlfFS "crlf.txt" = okRead "crlf.txt" "utf-8" ("a\nb").data := by
  constructor
  · exact (read_returns_translated_content sampleFS "a.txt" [104, 105] "utf-8" ("hi").data
      (by decide) (by decide)).2 (by decide)
  · exact ((read_returns_translated_content crlfFS "crlf.txt" [97, 13, 10, 98] "utf-8"
      ("a\r\nb").data (by decide) (by decide)).1).trans (by decide)

/-- Claim C4: read_file fails with the does-not-exist message when the
path is absent, with the not-a-file message when the entry is not a
regular file (tested before readability, so an unreadable directory
still reports not-a-file), and with the permission message when a
regular file is unreadable; and a failed read propagates its error
without ever invoking process_text. -/
theorem read_error_taxonomy (fs : FS) (path operation : String) :
    (fs.entry path = none → read_file fs path = failRead (notFoundMsg path)) ∧
    (∀ e, fs.entry path = some e → isFileEntry e = false →
      read_file fs path = failRead (notAFileMsg path)) ∧
    (∀ bs, fs.entry path = some (Entry.file bs false) →
      read_file fs path = failRead (readPermMsg path)) ∧
    ((read_file fs path).success = false →
      readAndProcess fs path operation = Except.error ((read_file fs path).errorMsg)) := by
  refine ⟨fun h => by simp [read_file, h], fun e he hf => ?_,
    fun bs hb => by simp [read_file, hb], fun hs => by simp [readAndProcess, hs]⟩
  cases e with
  | file bs r => simp [isFileEntry] at hf
  | dir r => simp [read_file, he]
  | other r => simp [read_file, he]

/-- Witness for claim C4: a missing path, an unreadable directory and an
unreadable regular file of the sample filesystem, and the missing path
flowing through the read-and-process step untransformed. -/
theorem read_error_taxonomy_witness :
    read_file sampleFS "missing.txt" = failRead (notFoundMsg "missing.txt") ∧
    read_file sampleFS "d" = failRead (notAFileMsg "d") ∧
    read_file sampleFS "locked.txt" = failRead (readPermMsg "locked.txt") ∧
    readAndProcess sampleFS "missing.txt" "word_count" =
      Except.error (notFoundMsg "missing.txt") := by
  refine ⟨(read_error_taxonomy sampleFS "missing.txt" "word_count").1 (by decide),
    (read_error_taxonomy sampleFS "d" "word_count").2.1 (Entry.dir false) (by decide) (by decide),
    (read_error_taxonomy sampleFS "locked.txt" "word_count").2.2.1 [65] (by decide), ?_⟩
  have h4 := (read_error_taxonomy sampleFS "missing.txt" "word_count").2.2.2 (by decide)
  rw [h4]
  exact congrArg Except.error (by decide)

/-- Claim C5 counterexample: UTF-8 is the first encoding of the list to
decode the CRLF file and its raw codec result is the text a-CR-LF-b, yet
read_file does not return that raw result: text mode hands back the
newline-translated text. -/
theorem read_raw_first_decode_refuted :
    utf8Decode [97, 13, 10, 98] = some (("a\r\nb").data) ∧
    read_file crlfFS "crlf.txt" ≠ okRead "crlf.txt" "utf-8" (("a\r\nb").data) ∧
    read_file crlfFS "crlf.txt" = okRead "crlf.txt" "utf-8" (("a\nb").data) := by
  decide

/-- Claim C5 as amended: read_file tries the fixed list utf-8, utf-16,
latin-1, cp1252 strictly in order and returns success with the
universal-newline-translated text of the first encoding that decodes
without error; were every encoding to fail it would return the
undecodable-content failure.  The cp1252 and exhausted cases can only be
reached through a Latin-1 failure, which cannot happen, so those two
conjuncts hold vacuously. -/
theorem read_encoding_order (fs : FS) (path : String) (bs : List Nat)
    (h : fs.entry path = some (Entry.file bs true)) :
    (∀ t, utf8Decode bs = some t →
      read_file fs path = okRead path "utf-8" (universalNewlines t)) ∧
    (utf8Decode bs = none → ∀ t, utf16Decode bs = some t →
      read_file fs path = okRead path "utf-16" (universalNewlines t)) ∧
    (utf8Decode bs = none → utf16Decode bs = none →
      read_file fs path = okRead path "latin-1" (universalNewlines (latin1Decode bs))) ∧
    (utf8Decode bs = none → utf16Decode bs = none →
      decodeWith "latin-1" bs = none → ∀ t, decodeWith "cp1252" bs = some t →
      read_file fs path = okRead path "cp1252" (universalNewlines t)) ∧
    (firstDecode bs = none → read_file fs path = failRead (undecodableMsg path)) := by
  refine ⟨fun t h8 => ?_, fun h8 t h16 => ?_, fun h8 h16 => ?_,
    fun _ _ hl _ _ => absurd hl (by simp [decodeWith_latin1]), fun hn => ?_⟩
  · simp [read_file, h, firstDecode_eq, h8]
  · simp [read_file, h, firstDecode_eq, h8, h16]
  · simp [read_file, h, firstDecode_eq, h8, h16]
  · simp [read_file, h, hn]

/-- Witness for claim C5 as amended: the UTF-8 file decodes under the
first encoding; the byte 255 fails UTF-8 and UTF-16 and falls through to
Latin-1. -/
theorem read_encoding_order_witness :
    read_file sampleFS "a.txt" = okRead "a.txt" "utf-8" (universalNewlines ("hi").data) ∧
    read_file sampleFS "bin.dat" =
      okRead "bin.dat" "latin-1" (universalNewlines (latin1Decode [255])) :=
  ⟨(read_encoding_order sampleFS "a.txt" [104, 105] (by decide)).1 ("hi").data (by decide),
   (read_encoding_order sampleFS "bin.dat" [255] (by decide)).2.2.1 (by decide) (by decide)⟩

/-- Claim C6: whenever read_file or write_file fails, the exact error
message returned to the caller is also the one message appended to the
session error log; no exception escapes either operation, which is
inherent in the embedding being a total function into a result record. -/
theorem errors_logged (fs : FS) (path : String) (content : Text) (backup : Bool) :
    ((read_file fs path).success = false →
      (read_file fs path).newErrors = [(read_file fs path).errorMsg]) ∧
    ((write_file fs path content backup).success = false →
      (write_file fs path content backup).newErrors =
        [(write_file fs path content backup).errorMsg]) := by
  constructor
  · intro hs
    rcases read_file_shape fs path with ⟨enc, t, hr⟩ | ⟨m, hr⟩
    · rw [hr] at hs
      simp [okRead] at hs
    · rw [hr]
      simp [failRead]
  · intro hs
    cases hw : fs.writable path with
    | true => simp [write_file, hw] at hs
    | false => simp [write_file, hw]

/-- Witness for claim C6: a failed read of a missing path and a failed
write to the unwritable path both log exactly the returned message. -/
theorem errors_logged_witness :
    (read_file sampleFS "nope.txt").newErrors = [(read_file sampleFS "nope.txt").errorMsg] ∧
    (write_file sampleFS "ro.txt" ("x").data false).newErrors =
      [(write_file sampleFS "ro.txt" ("x").data false).errorMsg] :=
  ⟨(errors_logged sampleFS "nope.txt" ("x").data false).1 (by decide),
   (errors_logged sampleFS "ro.txt" ("x").data false).2 (by decide)⟩

/-- Claim C9: a successful write stores the UTF-8 encoding of the
content at the target path, whatever encoding any source file was read
with (write_file never takes an encoding: it always opens the target
with the utf-8 codec). -/
theorem write_persists_utf8 (fs : FS) (filename : String) (content : Text) (backup : Bool)
    (h : fs.writable filename = true) :
    (write_file fs filename content backup).success = true ∧
    (write_file fs filename content backup).fs.entry filename =
      some (Entry.file (utf8Encode content) true) := by
  constructor <;> simp [write_file, h, setEntry]

/-- Witness for claim C9 on a concrete write. -/
theorem write_persists_utf8_witness :
    (write_file sampleFS "out.txt" ("ok").data true).success = true ∧
    (write_file sampleFS "out.txt" ("ok").data true).fs.entry "out.txt" =
      some (Entry.file (utf8Encode ("ok").data) true) :=
  write_persists_utf8 sampleFS "out.txt" ("ok").data true (by decide)

/-- Claim C10: the undecodable-content failure is unreachable, because
Latin-1 decodes every byte sequence; a read of an existing, readable
regular file always succeeds, whatever its bytes. -/
theorem undecodable_unreachable (fs : FS) (path : String) (bs : List Nat)
    (h : fs.entry path = some (Entry.file bs true)) :
    firstDecode bs ≠ none ∧ (read_file fs path).success = true ∧
    (read_file fs path).errorMsg = "" := by
  have hf : ∃ enc t, firstDecode bs = some (enc, t) := by
    rw [firstDecode_eq]
    cases h8 : utf8Decode bs with
    | some t => exact ⟨"utf-8", t, rfl⟩
    | none =>
      cases h16 : utf16Decode bs with
      | some t => exact ⟨"utf-16", t, rfl⟩
      | none => exact ⟨"latin-1", latin1Decode bs, rfl⟩
  obtain ⟨enc, t, hd⟩ := hf
  refine ⟨by simp [hd], ?_, ?_⟩ <;> simp [read_file, h, hd, okRead]

/-- Witness for claim C10: the byte 255 is valid neither UTF-8 nor
UTF-16, yet the read succeeds via Latin-1. -/
theorem undecodable_unreachable_witness :
    firstDecode [255] ≠ none ∧ (read_file sampleFS "bin.dat").success = true ∧
    (read_file sampleFS "bin.dat").errorMsg = "" :=
  undecodable_unreachable sampleFS "bin.dat" [255] (by decide)
